import Mathlib

/-!
Shallow embedding of `ble-scanner-and-feeder.py`: the BLE advertisement
TLV parser (`BleAdvParser`), the two vendor payload decoders
(`parse_ruuvi_mfg_data`, `parse_mijia_sensor_data`), and the per-device
aggregation/flush engine (`update_sensor_data`), together with theorems
settling the specification claims about them.

Modelling conventions:
- A byte buffer is a `List Nat` whose entries are meant to lie in `[0, 255]`.
- Python `struct.unpack_from` raises `struct.error` when the buffer holds
  fewer bytes than the format requires past the offset; we model fallible
  reads with `Except PyErr`.  `struct.error` derives directly from
  `Exception` in CPython (not from `ValueError`), which matters for which
  handlers in `main` can catch it.
- Python `dict` preserves insertion order; assignment to an existing key
  overwrites in place, a fresh key is appended.  We model dicts as ordered
  association lists with those exact semantics (`dictSet`, `dictUpdate`).
- Python floats are modelled as rationals (`ℚ`); every constant appearing
  in the decoders (0.005, 0.0025, /100, /1000, /10) is exactly
  representable and the claims quote values well within any floating-point
  tolerance, so the rational model is faithful for the claimed equalities.
- `time.monotonic()` is an external input; the aggregator model takes the
  current time `now : ℚ` as an argument.
-/

namespace BleScanner

/-- The Python exception classes this program can raise or catch.
`structError` is `struct.error`, whose only base class is `Exception`. -/
inductive PyErr where
  | structError
  | indexError
  | valueError
  | unicodeDecodeError
  | binasciiError
deriving DecidableEq

deriving instance DecidableEq for Except

/-- A byte buffer: list of byte values. -/
abbrev Bytes := List Nat

/-- A decoded metric mapping, insertion-ordered like a Python dict. -/
abbrev Metrics := List (String × ℚ)

/-- `struct.unpack_from("<B", data, offset)`: one unsigned byte, or
`struct.error` if fewer than 1 byte remains past the offset. -/
def unpackU8 (d : Bytes) (off : Nat) : Except PyErr Nat :=
  if off + 1 ≤ d.length then .ok (d.getD off 0) else .error .structError

/-- `struct.unpack_from("<H", data, offset)`: little-endian unsigned
16-bit, or `struct.error` if fewer than 2 bytes remain past the offset. -/
def unpackU16LE (d : Bytes) (off : Nat) : Except PyErr Nat :=
  if off + 2 ≤ d.length then .ok (d.getD off 0 + 256 * d.getD (off + 1) 0)
  else .error .structError

/-- `struct.unpack_from(">H", data, offset)`: big-endian unsigned 16-bit. -/
def unpackU16BE (d : Bytes) (off : Nat) : Except PyErr Nat :=
  if off + 2 ≤ d.length then .ok (256 * d.getD off 0 + d.getD (off + 1) 0)
  else .error .structError

/-- `struct.unpack_from(">h", data, offset)`: big-endian signed 16-bit
(two's complement). -/
def unpackI16BE (d : Bytes) (off : Nat) : Except PyErr Int :=
  if off + 2 ≤ d.length then
    let raw := 256 * d.getD off 0 + d.getD (off + 1) 0
    .ok (if raw < 32768 then (raw : Int) else (raw : Int) - 65536)
  else .error .structError

/-- Python dict assignment `d[k] = v`: overwrite in place if the key is
present, otherwise append at the end (insertion order preserved). -/
def dictSet {K V : Type} [BEq K] (d : List (K × V)) (k : K) (v : V) :
    List (K × V) :=
  if d.any (fun p => p.1 == k) then
    d.map (fun p => if p.1 == k then (k, v) else p)
  else d ++ [(k, v)]

/-- Python `d.update(news)`: fold `dictSet` over the incoming pairs. -/
def dictUpdate {K V : Type} [BEq K] (d news : List (K × V)) : List (K × V) :=
  news.foldl (fun acc kv => dictSet acc kv.1 kv.2) d

/-- Python `d.get(k)` on our ordered association lists. -/
def dictGet {K V : Type} [BEq K] (d : List (K × V)) (k : K) : Option V :=
  (d.find? (fun p => p.1 == k)).map Prod.snd

def RUUVI_MFG_ID : Nat := 1177
def MIJIA_SVC_ID : Nat := 0xfe95
def TEMPERATURE_LABEL : String := "temperature"
def HUMIDITY_LABEL : String := "humidity"

/-- `TX_INTERVAL = 30`: the aggregator's flush interval. -/
def TX_INTERVAL : ℚ := 30

/-- `parse_ruuvi_mfg_data(data)` from the source: `None` for an empty
buffer; for format byte 5 with at least 15 bytes, unpack `>hHH` at
offset 1 and `>H` at offset 13 and scale; otherwise the empty dict. -/
def parse_ruuvi_mfg_data (d : Bytes) : Except PyErr (Option Metrics) :=
  if d.length < 1 then .ok none
  else
    let fmt := d.getD 0 0
    if fmt = 5 ∧ 15 ≤ d.length then do
      let temperature ← unpackI16BE d 1
      let humidity ← unpackU16BE d 3
      let atm_pressure ← unpackU16BE d 5
      let power_info ← unpackU16BE d 13
      let battery_voltage_mv := power_info / 32
      let tx_power := power_info % 32
      .ok (some [
        (TEMPERATURE_LABEL, (temperature : ℚ) * (5 / 1000)),
        (HUMIDITY_LABEL, (humidity : ℚ) * (25 / 10000)),
        ("atmospheric_pressure", ((atm_pressure : ℚ) + 50000) / 100),
        ("battery_voltage", ((battery_voltage_mv : ℚ) + 1600) / 1000),
        ("tx_power", -40 + 2 * (tx_power : ℚ))])
    else .ok (some [])

/-- `parse_mijia_sensor_data(data)` from the source: `None` for fewer
than 12 bytes; dispatch on the sub-type byte at offset 11 and unpack
little-endian fields at offset 14. -/
def parse_mijia_sensor_data (d : Bytes) : Except PyErr (Option Metrics) :=
  if d.length < 12 then .ok none
  else do
    let data_type ← unpackU8 d 11
    if data_type = 0x0D then do
      let temperature ← unpackU16LE d 14
      let humidity ← unpackU16LE d 16
      .ok (some [(TEMPERATURE_LABEL, (temperature : ℚ) / 10),
                 (HUMIDITY_LABEL, (humidity : ℚ) / 10)])
    else if data_type = 0x06 then do
      let humidity ← unpackU16LE d 14
      .ok (some [(HUMIDITY_LABEL, (humidity : ℚ) / 10)])
    else if data_type = 0x04 then do
      let temperature ← unpackU16LE d 14
      .ok (some [(TEMPERATURE_LABEL, (temperature : ℚ) / 10)])
    else if data_type = 0x0A then do
      let battery ← unpackU8 d 14
      .ok (some [("battery_percent", (battery : ℚ))])
    else .ok (some [])

/-- A captured advertising element: `\x7b 'ad_type': ..., 'ad_data': ... \x7d`. -/
abbrev AdElement := Nat × Bytes

/-- The two lookup tables `BleAdvParser` builds: manufacturer data and
16-bit service data, keyed by a 16-bit identifier. -/
structure AdvCtx where
  mfg_data : List (Nat × Bytes)
  service_data : List (Nat × Bytes)
deriving DecidableEq

/-- The `while offset < len(data)` loop of `BleAdvParser.parse`, phrased
on the bytes remaining past the cursor (Python slices only ever look
forward from the cursor, so this is the same computation).  Each step
reads `(length, ad_type)` with `unpack_from("<BB", ...)` — raising
`struct.error` when exactly one byte remains — captures the element when
`length - 1 > 0` with its payload truncated to the available bytes, and
advances the cursor by `length + 1`. -/
def parseLoop (l : Bytes) : Except PyErr (List AdElement) :=
  match l with
  | [] => .ok []
  | [_] => .error .structError
  | length :: ad_type :: rest =>
    let captured : List AdElement :=
      if 2 ≤ length then [(ad_type, rest.take (length - 1))] else []
    match parseLoop ((ad_type :: rest).drop length) with
    | .error e => .error e
    | .ok tl => .ok (captured ++ tl)
termination_by l.length
decreasing_by simp [List.length_drop]; omega

/-- One iteration of the `for e in self.ad_elements` loop in
`parse_ad_elements`: type 255 stores `ad_data[2:]` into `mfg_data` keyed
by the little-endian uint16 at the front of the payload (raising
`struct.error` when fewer than 2 payload bytes exist), type 0x16
likewise into `service_data`; any other type is ignored. -/
def adElemStep (ctx : AdvCtx) (e : AdElement) : Except PyErr AdvCtx :=
  if e.1 = 255 then
    match unpackU16LE e.2 0 with
    | .error er => .error er
    | .ok mfg_id =>
      .ok { ctx with mfg_data := dictSet ctx.mfg_data mfg_id (e.2.drop 2) }
  else if e.1 = 0x16 then
    match unpackU16LE e.2 0 with
    | .error er => .error er
    | .ok service_uid =>
      .ok { ctx with
              service_data := dictSet ctx.service_data service_uid (e.2.drop 2) }
  else .ok ctx

/-- `BleAdvParser.parse_ad_elements`: walk the captured elements in
order, threading the two tables and propagating the first exception. -/
def parse_ad_elements (elems : List AdElement) : Except PyErr AdvCtx :=
  elems.foldlM adElemStep ⟨[], []⟩

/-- `BleAdvParser().parse(data)` on a fresh instance: split the buffer
into elements, then group them into the two tables. -/
def BleAdvParser.parse (data : Bytes) : Except PyErr AdvCtx :=
  match parseLoop data with
  | .error e => .error e
  | .ok elems => parse_ad_elements elems

/-- The buffers on which the parse loop avoids `struct.error`: every
iteration either ends the loop (nothing left) or finds at least two
bytes at the cursor, and every element the loop captures with type 0xFF
or 0x16 carries at least 2 payload bytes.  This predicate walks the
buffer exactly as `parseLoop` does. -/
def parseSafe (l : Bytes) : Bool :=
  match l with
  | [] => true
  | [_] => false
  | length :: ad_type :: rest =>
    (decide ((2 ≤ length ∧ (ad_type = 255 ∨ ad_type = 0x16)) →
       2 ≤ (rest.take (length - 1)).length))
    && parseSafe ((ad_type :: rest).drop length)
termination_by l.length
decreasing_by simp [List.length_drop]; omega

/-- A well-formed TLV record: `[length = payload length + 1, type,
payload...]`. -/
def tlv (t : Nat) (payload : Bytes) : Bytes :=
  (payload.length + 1) :: t :: payload

/-- One entry of `SENSOR_MAP`: per-device mutable state plus static
configuration. -/
structure Sensor where
  last_sent : ℚ
  accrued_data : Metrics
  address : String
  label : String
  tags : List (String × String)
deriving DecidableEq

/-- One point handed to the InfluxDB sink: measurement name, the
device's static tags, and the scalar value. -/
structure Point where
  measurement : String
  tags : List (String × String)
  value : ℚ
deriving DecidableEq

/-- Python `str.casefold()`; for the ASCII MAC-address strings compared
here it is plain lowercasing (applied characterwise). -/
def casefold (s : String) : String := ⟨s.data.map Char.toLower⟩

/-- The static `SENSOR_MAP` configuration from the source. -/
def SENSOR_MAP : List Sensor :=
  [ { last_sent := 0, accrued_data := [], address := "E6:99:94:26:C5:C3",
      label := "\x7b\x7d",
      tags := [("room", "office"), ("location", "window")] },
    { last_sent := 0, accrued_data := [], address := "C1:2F:56:FB:6A:0A",
      label := "\x7b\x7d",
      tags := [("room", "bedroom"), ("location", "window")] },
    { last_sent := 0, accrued_data := [], address := "F6:8C:F2:8D:6E:A3",
      label := "\x7b\x7d",
      tags := [("room", "living"), ("location", "tv")] },
    { last_sent := 0, accrued_data := [], address := "4C:65:A8:D4:03:E3",
      label := "\x7b\x7d",
      tags := [("room", "hallway"), ("location", "kitchen")] } ]

/-- The body of `update_sensor_data`'s `for sensor in SENSOR_MAP` loop
for one sensor: on a case-insensitive address match, merge the incoming
data into `accrued_data`; if `now - last_sent >= TX_INTERVAL`, build one
point per accrued key (carrying the sensor's tags), set
`last_sent = now`, clear the accrued dict, and emit the batch. -/
def updateOne (address : String) (data : Metrics) (now : ℚ) (sensor : Sensor) :
    Sensor × List (List Point) :=
  if casefold sensor.address = casefold address then
    let since_last := now - sensor.last_sent
    let accrued := dictUpdate sensor.accrued_data data
    if TX_INTERVAL ≤ since_last then
      let json_body := accrued.map (fun kv => ⟨kv.1, sensor.tags, kv.2⟩)
      ({ sensor with last_sent := now, accrued_data := [] }, [json_body])
    else
      ({ sensor with accrued_data := accrued }, [])
  else (sensor, [])

/-- `update_sensor_data(address, data)`: the loop runs over every sensor
(there is no `break`), so every matching record is updated and every
flush it triggers is sent.  `time.monotonic()` is passed in as `now`.
Returns the new sensor list and the batches handed to
`send_sensor_data`. -/
def update_sensor_data (sensors : List Sensor) (address : String)
    (data : Metrics) (now : ℚ) : List Sensor × List (List Point) :=
  let results := sensors.map (updateOne address data now)
  (results.map Prod.fst, (results.map Prod.snd).flatten)

/-- The exception classes caught (and ignored) by the `try`/`except`
arms in `main`'s read loop.  `struct.error` is not among them and
derives directly from `Exception`, so none of these handlers match it. -/
def mainCaughtErrors : List PyErr :=
  [.unicodeDecodeError, .indexError, .binasciiError, .valueError]

/-! Scenario pieces for the windowing claim: the first configured Ruuvi
device, addressed by its configured MAC, receives batches at times 0,
10, 31 and 31.1. -/

def c3_addr : String := "E6:99:94:26:C5:C3"

def c3_tags : List (String × String) := [("room", "office"), ("location", "window")]

/-- The three configured devices the scenario never touches. -/
def c3_rest : List Sensor := SENSOR_MAP.tail

def c3_default : Sensor := ⟨0, [], "", "", []⟩

def c3_step1 : List Sensor × List (List Point) :=
  update_sensor_data SENSOR_MAP c3_addr [("temperature", 20)] 0

def c3_step2 : List Sensor × List (List Point) :=
  update_sensor_data c3_step1.1 c3_addr [("humidity", 35)] 10

def c3_step3 : List Sensor × List (List Point) :=
  update_sensor_data c3_step2.1 c3_addr [] 31

def c3_step4 : List Sensor × List (List Point) :=
  update_sensor_data c3_step3.1 c3_addr [("rssi", -70)] (31.1 : ℚ)

/-! ## Helper lemmas -/

/-- On a buffer of at least 15 bytes, the Ruuvi decoder is the explicit
formula in the first 15 byte values. -/
lemma ruuvi_of_long (d : Bytes) (h : 15 ≤ d.length) :
    parse_ruuvi_mfg_data d =
      if d.getD 0 0 = 5 then
        .ok (some [
          (TEMPERATURE_LABEL,
            (((if 256 * d.getD 1 0 + d.getD 2 0 < 32768 then
                 ((256 * d.getD 1 0 + d.getD 2 0 : Nat) : Int)
               else ((256 * d.getD 1 0 + d.getD 2 0 : Nat) : Int) - 65536 : Int)
               : ℚ) * (5 / 1000))),
          (HUMIDITY_LABEL, ((256 * d.getD 3 0 + d.getD 4 0 : Nat) : ℚ) * (25 / 10000)),
          ("atmospheric_pressure",
            (((256 * d.getD 5 0 + d.getD 6 0 : Nat) : ℚ) + 50000) / 100),
          ("battery_voltage",
            ((((256 * d.getD 13 0 + d.getD 14 0) / 32 : Nat) : ℚ) + 1600) / 1000),
          ("tx_power", -40 + 2 * (((256 * d.getD 13 0 + d.getD 14 0) % 32 : Nat) : ℚ))])
      else .ok (some []) := by
  have h0 : ¬ d.length < 1 := by omega
  by_cases hf : d.getD 0 0 = 5
  · simp only [parse_ruuvi_mfg_data, unpackI16BE, unpackU16BE, if_neg h0,
      if_pos (show d.getD 0 0 = 5 ∧ 15 ≤ d.length from ⟨hf, h⟩), if_pos hf,
      if_pos (show 1 + 2 ≤ d.length by omega),
      if_pos (show 3 + 2 ≤ d.length by omega),
      if_pos (show 5 + 2 ≤ d.length by omega),
      if_pos (show 13 + 2 ≤ d.length by omega)]
    rfl
  · simp only [parse_ruuvi_mfg_data, if_neg h0, if_neg hf,
      if_neg (show ¬(d.getD 0 0 = 5 ∧ 15 ≤ d.length) from fun hc => hf hc.1)]

/-! ## Claims about the vendor payload decoders -/

/-- C4: decoding the Ruuvi format-5 sample payload
`05 0F FA 36 C9 C6 DA FF E8 00 18 04 00 B5 F6` yields exactly
temperature 20.45, humidity 35.0625, atmospheric pressure 1009.06,
battery voltage 3.055 and tx power 4, where the big-endian 16-bit word
at bytes [13:15) is 46582, its top 11 bits give the battery offset 1455
(hence (1455 + 1600)/1000 volts) and its bottom 5 bits give the tx code
22 (hence -40 + 2·22 dBm). -/
theorem c4_ruuvi_sample_decode :
    parse_ruuvi_mfg_data
        [0x05, 0x0F, 0xFA, 0x36, 0xC9, 0xC6, 0xDA, 0xFF, 0xE8, 0x00, 0x18,
         0x04, 0x00, 0xB5, 0xF6]
      = .ok (some [
          (TEMPERATURE_LABEL, 20.45),
          (HUMIDITY_LABEL, 35.0625),
          ("atmospheric_pressure", 1009.06),
          ("battery_voltage", 3.055),
          ("tx_power", 4)])
    ∧ unpackU16BE
        [0x05, 0x0F, 0xFA, 0x36, 0xC9, 0xC6, 0xDA, 0xFF, 0xE8, 0x00, 0x18,
         0x04, 0x00, 0xB5, 0xF6] 13 = .ok 46582
    ∧ 46582 / 32 = 1455 ∧ 46582 % 32 = 22
    ∧ ((1455 : ℚ) + 1600) / 1000 = 3.055 ∧ (-40 : ℚ) + 2 * 22 = 4 := by
  refine ⟨?_, by decide, by decide, by decide, by norm_num, by norm_num⟩
  rw [ruuvi_of_long _ (by decide)]
  have g1 : List.getD [0x05, 0x0F, 0xFA, 0x36, 0xC9, 0xC6, 0xDA, 0xFF, 0xE8,
      0x00, 0x18, 0x04, 0x00, 0xB5, 0xF6] 0 0 = 5 := rfl
  norm_num [List.getD]

/-- C6: a non-empty Ruuvi payload whose first byte is not 5, or whose
first byte is 5 but which is shorter than 15 bytes, decodes to the empty
mapping with no error raised. -/
theorem c6_ruuvi_non5_or_short_empty (d : Bytes) (h1 : 1 ≤ d.length)
    (h2 : d.getD 0 0 ≠ 5 ∨ d.length < 15) :
    parse_ruuvi_mfg_data d = .ok (some []) := by
  have h0 : ¬ d.length < 1 := by omega
  have hc : ¬ (d.getD 0 0 = 5 ∧ 15 ≤ d.length) := by
    rcases h2 with h2 | h2
    · exact fun hx => h2 hx.1
    · exact fun hx => by omega
  simp only [parse_ruuvi_mfg_data, if_neg h0, if_neg hc]

/-- Witness for C6 at the concrete payload `[6, 1, 2]`. -/
theorem c6_ruuvi_non5_or_short_empty_witness :
    1 ≤ ([6, 1, 2] : Bytes).length
    ∧ (([6, 1, 2] : Bytes).getD 0 0 ≠ 5 ∨ ([6, 1, 2] : Bytes).length < 15)
    ∧ parse_ruuvi_mfg_data [6, 1, 2] = .ok (some []) :=
  ⟨by decide, by decide,
   c6_ruuvi_non5_or_short_empty [6, 1, 2] (by decide) (by decide)⟩

/-- C10: the Ruuvi decoder's output depends only on the first 15 payload
bytes — two payloads of length at least 15 agreeing on bytes 0..14
decode identically. -/
theorem c10_ruuvi_depends_on_prefix (d1 d2 : Bytes) (h1 : 15 ≤ d1.length)
    (h2 : 15 ≤ d2.length) (h : d1.take 15 = d2.take 15) :
    parse_ruuvi_mfg_data d1 = parse_ruuvi_mfg_data d2 := by
  have hb : ∀ i, i < 15 → d1.getD i 0 = d2.getD i 0 := by
    intro i hi
    have := congrArg (fun l => l.getD i 0) h
    simpa [List.getD_eq_getElem?_getD, List.getElem?_take, hi] using this
  rw [ruuvi_of_long d1 h1, ruuvi_of_long d2 h2,
    hb 0 (by omega), hb 1 (by omega), hb 2 (by omega), hb 3 (by omega),
    hb 4 (by omega), hb 5 (by omega), hb 6 (by omega), hb 13 (by omega),
    hb 14 (by omega)]

/-- Witness for C10: two 15-byte-agreeing payloads, the second with an
extra byte, decode identically. -/
theorem c10_ruuvi_depends_on_prefix_witness :
    15 ≤ ([5, 0, 1, 0, 2, 0, 3, 0, 0, 0, 0, 0, 0, 0, 4] : Bytes).length
    ∧ 15 ≤ ([5, 0, 1, 0, 2, 0, 3, 0, 0, 0, 0, 0, 0, 0, 4, 99] : Bytes).length
    ∧ ([5, 0, 1, 0, 2, 0, 3, 0, 0, 0, 0, 0, 0, 0, 4] : Bytes).take 15
        = ([5, 0, 1, 0, 2, 0, 3, 0, 0, 0, 0, 0, 0, 0, 4, 99] : Bytes).take 15
    ∧ parse_ruuvi_mfg_data [5, 0, 1, 0, 2, 0, 3, 0, 0, 0, 0, 0, 0, 0, 4]
        = parse_ruuvi_mfg_data [5, 0, 1, 0, 2, 0, 3, 0, 0, 0, 0, 0, 0, 0, 4, 99] :=
  ⟨by decide, by decide, by decide,
   c10_ruuvi_depends_on_prefix _ _ (by decide) (by decide) (by decide)⟩

/-- C2 (code bug): a Mijia payload of 12 bytes whose sub-type byte at
offset 11 is 0x0D passes the length precondition but selects two 16-bit
fields at offset 14; `struct.unpack_from` then raises `struct.error`,
and `struct.error` is not among the exception classes caught by `main`'s
read loop, so the exception propagates out of the decode/aggregate
pipeline instead of being skipped as a per-record failure. -/
theorem c2_mijia_short_subtype_raises_uncaught :
    parse_mijia_sensor_data [0, 0, 0, 0, 0, 0, 0, 0, 0, 0, 0, 0x0D]
      = .error .structError
    ∧ PyErr.structError ∉ mainCaughtErrors := by
  constructor
  · decide
  · decide

/-! ## Claims about the aggregator -/

/-- C8: an address matching no configured record (case-insensitively) is
a no-op — no sensor record changes and no flush batch is returned. -/
theorem c8_unknown_address_noop (sensors : List Sensor) (address : String)
    (data : Metrics) (now : ℚ)
    (h : ∀ s ∈ sensors, casefold s.address ≠ casefold address) :
    update_sensor_data sensors address data now = (sensors, []) := by
  induction sensors with
  | nil => rfl
  | cons s rest ih =>
    have hs : casefold s.address ≠ casefold address := h s (by simp)
    have hrest := ih (fun x hx => h x (by simp [hx]))
    simp only [update_sensor_data, List.map_cons, List.flatten_cons,
      Prod.mk.injEq] at hrest ⊢
    rw [updateOne, if_neg hs]
    simp only [List.nil_append, List.cons.injEq, true_and]
    exact ⟨hrest.1, hrest.2⟩

/-- Witness for C8: an address absent from `SENSOR_MAP` leaves the whole
configuration untouched and returns no batch. -/
theorem c8_unknown_address_noop_witness :
    (∀ s ∈ SENSOR_MAP, casefold s.address ≠ casefold "00:11:22:33:44:55")
    ∧ update_sensor_data SENSOR_MAP "00:11:22:33:44:55" [("temperature", 1)] 100
        = (SENSOR_MAP, []) :=
  ⟨by decide,
   c8_unknown_address_noop SENSOR_MAP "00:11:22:33:44:55" [("temperature", 1)]
     100 (by decide)⟩

/-- C9: the aggregator's merge is last-write-wins per key — two batches
within one window setting the same key to different values leave only
the second value in the accrued state, and the flush carries exactly
that value; the first value appears nowhere in the flushed batch. -/
theorem c9_last_write_wins (addr k lbl : String)
    (tags : List (String × String)) (last t1 t2 v1 v2 : ℚ)
    (h1 : t1 - last < 30) (h2 : 30 ≤ t2 - last) (hv : v1 ≠ v2) :
    update_sensor_data [⟨last, [], addr, lbl, tags⟩] addr [(k, v1)] t1
      = ([⟨last, [(k, v1)], addr, lbl, tags⟩], [])
    ∧ update_sensor_data [⟨last, [(k, v1)], addr, lbl, tags⟩] addr [(k, v2)] t2
      = ([⟨t2, [], addr, lbl, tags⟩], [[⟨k, tags, v2⟩]])
    ∧ (⟨k, tags, v1⟩ : Point) ∉ [(⟨k, tags, v2⟩ : Point)] := by
  refine ⟨?_, ?_, ?_⟩
  · simp only [update_sensor_data, List.map_cons, List.map_nil, updateOne,
      if_pos rfl, dictUpdate, List.foldl, dictSet, List.any_nil,
      Bool.false_eq_true, if_neg (show ¬(TX_INTERVAL ≤ t1 - last) by
        simp only [TX_INTERVAL]; linarith)]
    simp
  · simp only [update_sensor_data, List.map_cons, List.map_nil, updateOne,
      if_pos rfl, dictUpdate, List.foldl, dictSet, List.any_cons,
      List.any_nil, beq_self_eq_true, Bool.true_or, if_pos rfl,
      if_pos (show TX_INTERVAL ≤ t2 - last from h2), List.map_cons,
      List.map_nil]
    simp
  · simp only [List.mem_singleton, Point.mk.injEq, not_and]
    exact fun _ _ => hv

/-- Witness for C9 at concrete values: first batch sets temperature to
1, second to 2, window flushes on the second call. -/
theorem c9_last_write_wins_witness :
    ((5 : ℚ) - 0 < 30) ∧ ((30 : ℚ) ≤ 31 - 0) ∧ ((1 : ℚ) ≠ 2)
    ∧ update_sensor_data [⟨0, [], "A", "", []⟩] "A" [("temperature", 1)] 5
        = ([⟨0, [("temperature", 1)], "A", "", []⟩], [])
    ∧ update_sensor_data [⟨0, [("temperature", 1)], "A", "", []⟩] "A"
        [("temperature", 2)] 31
        = ([⟨31, [], "A", "", []⟩], [[⟨"temperature", [], 2⟩]])
    ∧ (⟨"temperature", [], 1⟩ : Point) ∉ [(⟨"temperature", [], 2⟩ : Point)] := by
  have h := c9_last_write_wins "A" "temperature" "" [] 0 5 31 1 2
    (by norm_num) (by norm_num) (by norm_num)
  exact ⟨by norm_num, by norm_num, by norm_num, h.1, h.2.1, h.2.2⟩

/-- A non-matching sensor is returned untouched with no batch. -/
lemma updateOne_nomatch (addr : String) (d : Metrics) (t : ℚ) (s : Sensor)
    (h : casefold s.address ≠ casefold addr) :
    updateOne addr d t s = (s, []) := by
  rw [updateOne, if_neg h]

/-- When no configured sensor matches the address, the whole update is
the identity with no batches. -/
lemma update_all_nomatch (sensors : List Sensor) (addr : String) (d : Metrics)
    (t : ℚ) (h : ∀ s ∈ sensors, casefold s.address ≠ casefold addr) :
    update_sensor_data sensors addr d t = (sensors, []) := by
  induction sensors with
  | nil => rfl
  | cons s rest ih =>
    have hrest := ih (fun x hx => h x (by simp [hx]))
    simp only [update_sensor_data, List.map_cons, List.flatten_cons,
      Prod.mk.injEq] at hrest ⊢
    rw [updateOne_nomatch _ _ _ _ (h s (by simp))]
    simp only [List.nil_append, List.cons.injEq, true_and]
    exact ⟨hrest.1, hrest.2⟩

/-- A matching head sensor inside the window accrues the batch and
contributes no flush. -/
lemma update_match_accrue (s : Sensor) (rest : List Sensor) (addr : String)
    (d : Metrics) (t : ℚ) (hm : casefold s.address = casefold addr)
    (ht : ¬ TX_INTERVAL ≤ t - s.last_sent) :
    update_sensor_data (s :: rest) addr d t
      = ({ s with accrued_data := dictUpdate s.accrued_data d }
           :: (update_sensor_data rest addr d t).1,
         (update_sensor_data rest addr d t).2) := by
  simp only [update_sensor_data, List.map_cons, List.flatten_cons]
  rw [updateOne, if_pos hm, if_neg ht]
  simp

/-- A matching head sensor past the window merges the batch, flushes one
point per accrued key carrying its tags, resets `last_sent`, and clears
the accrued mapping. -/
lemma update_match_flush (s : Sensor) (rest : List Sensor) (addr : String)
    (d : Metrics) (t : ℚ) (hm : casefold s.address = casefold addr)
    (ht : TX_INTERVAL ≤ t - s.last_sent) :
    update_sensor_data (s :: rest) addr d t
      = ({ s with last_sent := t, accrued_data := [] }
           :: (update_sensor_data rest addr d t).1,
         ((dictUpdate s.accrued_data d).map (fun kv => ⟨kv.1, s.tags, kv.2⟩))
           :: (update_sensor_data rest addr d t).2) := by
  simp only [update_sensor_data, List.map_cons, List.flatten_cons]
  rw [updateOne, if_pos hm, if_pos ht]
  simp

/-- The scenario's untouched devices never match the scenario address. -/
lemma c3_rest_nomatch (d : Metrics) (t : ℚ) :
    update_sensor_data c3_rest c3_addr d t = (c3_rest, []) :=
  update_all_nomatch c3_rest c3_addr d t (by decide)

/-- C3: with the 30-unit flush interval, calls at t=0 and t=10 with
disjoint keys accrue both keys and return no flush; the call at t=31
returns one batch holding both accrued keys with the device's tags and
values, resets `last_sent` to 31 and clears the accrual; the call at
t=31.1 accrues fresh without flushing; and from then on a call flushes
exactly when t ≥ 61. -/
theorem c3_aggregator_windowing :
    c3_step1.2 = []
    ∧ c3_step2.2 = []
    ∧ (c3_step2.1.headD c3_default).accrued_data
        = [("temperature", 20), ("humidity", 35)]
    ∧ c3_step3.2 = [[⟨"temperature", c3_tags, 20⟩, ⟨"humidity", c3_tags, 35⟩]]
    ∧ (c3_step3.1.headD c3_default).last_sent = 31
    ∧ (c3_step3.1.headD c3_default).accrued_data = []
    ∧ c3_step4.2 = []
    ∧ (c3_step4.1.headD c3_default).accrued_data = [("rssi", -70)]
    ∧ (∀ (d : Metrics) (t : ℚ), t < 61 →
        (update_sensor_data c3_step4.1 c3_addr d t).2 = [])
    ∧ (∀ t : ℚ, 61 ≤ t →
        (update_sensor_data c3_step4.1 c3_addr [] t).2
          = [[⟨"rssi", c3_tags, -70⟩]]) := by
  have hmap : SENSOR_MAP
      = (⟨0, [], c3_addr, "\x7b\x7d", c3_tags⟩ : Sensor) :: c3_rest := rfl
  have e1 : c3_step1
      = ((⟨0, [("temperature", 20)], c3_addr, "\x7b\x7d", c3_tags⟩ : Sensor)
          :: c3_rest, []) := by
    rw [c3_step1, hmap, update_match_accrue _ _ _ _ _ rfl
      (by rw [TX_INTERVAL]; norm_num), c3_rest_nomatch]
    rfl
  have e2 : c3_step2
      = ((⟨0, [("temperature", 20), ("humidity", 35)], c3_addr, "\x7b\x7d",
            c3_tags⟩ : Sensor) :: c3_rest, []) := by
    rw [c3_step2, e1, update_match_accrue _ _ _ _ _ rfl
      (by rw [TX_INTERVAL]; norm_num), c3_rest_nomatch]
    rfl
  have e3 : c3_step3
      = ((⟨31, [], c3_addr, "\x7b\x7d", c3_tags⟩ : Sensor) :: c3_rest,
         [[⟨"temperature", c3_tags, 20⟩, ⟨"humidity", c3_tags, 35⟩]]) := by
    rw [c3_step3, e2, update_match_flush _ _ _ _ _ rfl
      (by rw [TX_INTERVAL]; norm_num), c3_rest_nomatch]
    rfl
  have e4 : c3_step4
      = ((⟨31, [("rssi", -70)], c3_addr, "\x7b\x7d", c3_tags⟩ : Sensor)
          :: c3_rest, []) := by
    rw [c3_step4, e3, update_match_accrue _ _ _ _ _ rfl
      (by rw [TX_INTERVAL]; norm_num), c3_rest_nomatch]
    rfl
  refine ⟨by rw [e1], by rw [e2], by rw [e2]; rfl, by rw [e3], by rw [e3]; rfl,
    by rw [e3]; rfl, by rw [e4], by rw [e4]; rfl, ?_, ?_⟩
  · intro d t htl
    rw [e4, update_match_accrue _ _ _ _ _ rfl
      (by dsimp only; rw [TX_INTERVAL]; intro hc; linarith), c3_rest_nomatch]
  · intro t htg
    rw [e4, update_match_flush _ _ _ _ _ rfl
      (by dsimp only; rw [TX_INTERVAL]; linarith), c3_rest_nomatch]
    rfl

/-- Witness for C3: the no-reflush clause instantiated at t = 40 and the
reflush clause at t = 61. -/
theorem c3_aggregator_windowing_witness :
    ((40 : ℚ) < 61) ∧ (update_sensor_data c3_step4.1 c3_addr [] 40).2 = []
    ∧ ((61 : ℚ) ≤ 61)
    ∧ (update_sensor_data c3_step4.1 c3_addr [] 61).2
        = [[⟨"rssi", c3_tags, -70⟩]] :=
  ⟨by norm_num, c3_aggregator_windowing.2.2.2.2.2.2.2.2.1 [] 40 (by norm_num),
   by norm_num, c3_aggregator_windowing.2.2.2.2.2.2.2.2.2 61 (by norm_num)⟩

/-! ## Claims about the TLV parser -/

/-- Unfolding of one parse-loop iteration, phrased on the cursor advance
`length + 1`. -/
lemma parseLoop_step (len ty : Nat) (rest : Bytes) :
    parseLoop (len :: ty :: rest)
      = match parseLoop ((len :: ty :: rest).drop (len + 1)) with
        | .error e => .error e
        | .ok tl =>
          .ok ((if 2 ≤ len then [(ty, rest.take (len - 1))] else []) ++ tl) := by
  conv_lhs => rw [parseLoop]
  rw [List.drop_succ_cons]

/-- C5: the parse loop terminates on every buffer: each iteration
recurses on the bytes past `cursor + length + 1` — a strict decrease of
at least one byte, a zero-length record contributing no element — and
the loop returns as soon as the cursor reaches or passes the end of the
buffer. -/
theorem c5_parse_loop_advances_and_stops :
    (∀ len ty rest, parseLoop (len :: ty :: rest)
      = match parseLoop ((len :: ty :: rest).drop (len + 1)) with
        | .error e => .error e
        | .ok tl =>
          .ok ((if 2 ≤ len then [(ty, rest.take (len - 1))] else []) ++ tl))
    ∧ (∀ len ty (rest : Bytes),
        ((len :: ty :: rest).drop (len + 1)).length < (len :: ty :: rest).length)
    ∧ parseLoop [] = .ok [] := by
  refine ⟨parseLoop_step, ?_, by rw [parseLoop]⟩
  intro len ty rest
  simp only [List.length_drop, List.length_cons]
  omega

/-- C1 counterexample: `parse` does throw on malformed input — a buffer
holding a single byte makes the loop's two-byte read raise
`struct.error`, and a captured manufacturer-data element whose payload
was truncated to a single byte makes the identifier read raise
`struct.error`. -/
theorem c1_parse_throws_counterexample :
    BleAdvParser.parse [1] = .error .structError
    ∧ BleAdvParser.parse [2, 255, 7] = .error .structError := by
  constructor
  · have hl : parseLoop [1] = .error .structError := by rw [parseLoop]
    rw [BleAdvParser.parse, hl]
  · have hl : parseLoop [2, 255, 7] = .ok [(255, [7])] := by
      rw [parseLoop]
      norm_num [parseLoop]
    rw [BleAdvParser.parse, hl]
    decide

/-- The parse loop succeeds on `parseSafe` buffers, and every captured
element of type 0xFF or 0x16 then has at least 2 payload bytes. -/
lemma parseLoop_ok_of_safe :
    ∀ n (l : Bytes), l.length ≤ n → parseSafe l = true →
      ∃ elems, parseLoop l = .ok elems
        ∧ ∀ e ∈ elems, (e.1 = 255 ∨ e.1 = 0x16) → 2 ≤ e.2.length := by
  intro n
  induction n with
  | zero =>
    intro l hl _
    have : l = [] := List.eq_nil_of_length_eq_zero (by omega)
    subst this
    exact ⟨[], by rw [parseLoop], by simp⟩
  | succ n ih =>
    intro l hl hs
    match l with
    | [] => exact ⟨[], by rw [parseLoop], by simp⟩
    | [x] => simp [parseSafe] at hs
    | a :: b :: rest =>
      rw [parseSafe] at hs
      simp only [Bool.and_eq_true, decide_eq_true_eq] at hs
      obtain ⟨h1, h2⟩ := hs
      have hlen : ((b :: rest).drop a).length ≤ n := by
        simp only [List.length_drop, List.length_cons] at hl ⊢
        omega
      obtain ⟨tl, htl, hall⟩ := ih _ hlen h2
      refine ⟨(if 2 ≤ a then [(b, rest.take (a - 1))] else []) ++ tl, ?_, ?_⟩
      · conv_lhs => rw [parseLoop]
        rw [htl]
      · intro e he hty
        rcases List.mem_append.mp he with hc | hc
        · by_cases h2a : 2 ≤ a
          · rw [if_pos h2a, List.mem_singleton] at hc
            subst hc
            exact h1 ⟨h2a, hty⟩
          · rw [if_neg h2a] at hc
            simp at hc
        · exact hall e hc hty

/-- Grouping the captured elements succeeds whenever every element of
type 0xFF or 0x16 has at least 2 payload bytes. -/
lemma foldlM_adElemStep_ok :
    ∀ (elems : List AdElement),
      (∀ e ∈ elems, (e.1 = 255 ∨ e.1 = 0x16) → 2 ≤ e.2.length) →
      ∀ ctx0, ∃ ctx, List.foldlM adElemStep ctx0 elems = .ok ctx := by
  intro elems
  induction elems with
  | nil => exact fun _ ctx0 => ⟨ctx0, rfl⟩
  | cons e es ih =>
    intro h ctx0
    have he := h e (by simp)
    have hstep : ∃ ctx1, adElemStep ctx0 e = .ok ctx1 := by
      rw [adElemStep]
      by_cases h255 : e.1 = 255
      · rw [if_pos h255, unpackU16LE, if_pos (by have := he (Or.inl h255); omega)]
        exact ⟨_, rfl⟩
      · by_cases h22 : e.1 = 0x16
        · rw [if_neg h255, if_pos h22, unpackU16LE,
            if_pos (by have := he (Or.inr h22); omega)]
          exact ⟨_, rfl⟩
        · rw [if_neg h255, if_neg h22]
          exact ⟨ctx0, rfl⟩
    obtain ⟨ctx1, hc1⟩ := hstep
    obtain ⟨ctx2, hc2⟩ := ih (fun x hx => h x (by simp [hx])) ctx1
    refine ⟨ctx2, ?_⟩
    rw [List.foldlM_cons, hc1]
    exact hc2

/-- C1 (amended): `parse` completes without raising — at worst with
empty tables — on every buffer where each loop iteration finds at least
two bytes at the cursor and each captured 0xFF/0x16 element keeps at
least 2 payload bytes; outside that set it raises `struct.error` (see
the counterexample). -/
theorem c1_parse_no_throw_when_safe (data : Bytes)
    (h : parseSafe data = true) :
    ∃ ctx, BleAdvParser.parse data = .ok ctx := by
  obtain ⟨elems, hel, hall⟩ := parseLoop_ok_of_safe data.length data le_rfl h
  obtain ⟨ctx, hc⟩ := foldlM_adElemStep_ok elems hall ⟨[], []⟩
  refine ⟨ctx, ?_⟩
  rw [BleAdvParser.parse, hel]
  exact hc

/-- Witness for C1 on a concrete well-formed buffer. -/
theorem c1_parse_no_throw_when_safe_witness :
    parseSafe [4, 255, 0x99, 0x04, 9] = true
    ∧ ∃ ctx, BleAdvParser.parse [4, 255, 0x99, 0x04, 9] = .ok ctx :=
  ⟨by rw [parseSafe]; norm_num [parseSafe],
   c1_parse_no_throw_when_safe _ (by rw [parseSafe]; norm_num [parseSafe])⟩

/-- One parse-loop step across a whole well-formed TLV record with a
non-empty payload: the record is captured exactly and the loop continues
right after it. -/
lemma parseLoop_tlv (t : Nat) (p rest : Bytes) (hp : 1 ≤ p.length) :
    parseLoop (tlv t p ++ rest)
      = match parseLoop rest with
        | .error e => .error e
        | .ok tl => .ok ((t, p) :: tl) := by
  show parseLoop ((p.length + 1) :: t :: (p ++ rest)) = _
  have ht : (p ++ rest).take (p.length + 1 - 1) = p := by
    rw [Nat.add_sub_cancel]
    exact List.take_left p rest
  have hd : (t :: (p ++ rest)).drop (p.length + 1) = rest := by
    rw [List.drop_succ_cons]
    exact List.drop_left p rest
  rw [parseLoop_step, List.drop_succ_cons, hd, if_pos (by omega), ht]
  cases parseLoop rest <;> rfl

/-- Grouping a manufacturer-data element with a two-byte identifier. -/
lemma adElemStep_mfg (ctx : AdvCtx) (b0 b1 : Nat) (pl : Bytes) :
    adElemStep ctx (255, b0 :: b1 :: pl)
      = .ok { ctx with mfg_data := dictSet ctx.mfg_data (b0 + 256 * b1) pl } := by
  rw [adElemStep, if_pos rfl, unpackU16LE, if_pos (by simp)]
  rfl

/-- Grouping a 16-bit service-data element with a two-byte identifier. -/
lemma adElemStep_svc (ctx : AdvCtx) (b0 b1 : Nat) (pl : Bytes) :
    adElemStep ctx (0x16, b0 :: b1 :: pl)
      = .ok { ctx with
                service_data := dictSet ctx.service_data (b0 + 256 * b1) pl } := by
  have h255 : ¬ ((0x16 : Nat), b0 :: b1 :: pl).1 = 255 := by norm_num
  rw [adElemStep, if_neg h255, if_pos rfl, unpackU16LE, if_pos (by simp)]
  rfl

/-- C7: a buffer of two well-formed TLV records — one manufacturer-data
element with identifier 1177 and one service-data element with
identifier 0xFE95 — parses to exactly those two payloads under their
identifiers, whichever order the records appear in. -/
theorem c7_parse_recovers_both_payloads (m s : Bytes)
    (hm : m.length ≤ 252) (hs : s.length ≤ 252)
    (hmb : ∀ b ∈ m, b < 256) (hsb : ∀ b ∈ s, b < 256) :
    BleAdvParser.parse (tlv 255 (0x99 :: 0x04 :: m) ++ tlv 0x16 (0x95 :: 0xFE :: s))
      = .ok ⟨[(1177, m)], [(0xFE95, s)]⟩
    ∧ BleAdvParser.parse (tlv 0x16 (0x95 :: 0xFE :: s) ++ tlv 255 (0x99 :: 0x04 :: m))
      = .ok ⟨[(1177, m)], [(0xFE95, s)]⟩ := by
  have hone : ∀ (t : Nat) (p : Bytes), 1 ≤ p.length →
      parseLoop (tlv t p) = .ok [(t, p)] := by
    intro t p hp
    have := parseLoop_tlv t p [] hp
    rw [List.append_nil] at this
    rw [this, parseLoop]
  have h1 : parseLoop (tlv 255 (0x99 :: 0x04 :: m) ++ tlv 0x16 (0x95 :: 0xFE :: s))
      = .ok [(255, 0x99 :: 0x04 :: m), (0x16, 0x95 :: 0xFE :: s)] := by
    rw [parseLoop_tlv _ _ _ (by simp), hone _ _ (by simp)]
  have h1' : parseLoop (tlv 0x16 (0x95 :: 0xFE :: s) ++ tlv 255 (0x99 :: 0x04 :: m))
      = .ok [(0x16, 0x95 :: 0xFE :: s), (255, 0x99 :: 0x04 :: m)] := by
    rw [parseLoop_tlv _ _ _ (by simp), hone _ _ (by simp)]
  have hm1 : (0x99 : Nat) + 256 * 0x04 = 1177 := by norm_num
  have hs1 : (0x95 : Nat) + 256 * 0xFE = 0xFE95 := by norm_num
  constructor
  · rw [BleAdvParser.parse, h1]
    show List.foldlM adElemStep ⟨[], []⟩ _ = _
    rw [List.foldlM_cons, adElemStep_mfg]
    show List.foldlM _ _ _ = _
    rw [List.foldlM_cons, adElemStep_svc]
    show List.foldlM _ _ _ = _
    rw [List.foldlM_nil, hm1, hs1]
    rfl
  · rw [BleAdvParser.parse, h1']
    show List.foldlM adElemStep ⟨[], []⟩ _ = _
    rw [List.foldlM_cons, adElemStep_svc]
    show List.foldlM _ _ _ = _
    rw [List.foldlM_cons, adElemStep_mfg]
    show List.foldlM _ _ _ = _
    rw [List.foldlM_nil, hm1, hs1]
    rfl

/-- Witness for C7 with payloads `[9]` and `[8, 7]`. -/
theorem c7_parse_recovers_both_payloads_witness :
    ([9] : Bytes).length ≤ 252 ∧ ([8, 7] : Bytes).length ≤ 252
    ∧ (∀ b ∈ ([9] : Bytes), b < 256) ∧ (∀ b ∈ ([8, 7] : Bytes), b < 256)
    ∧ BleAdvParser.parse
        (tlv 255 (0x99 :: 0x04 :: [9]) ++ tlv 0x16 (0x95 :: 0xFE :: [8, 7]))
        = .ok ⟨[(1177, [9])], [(0xFE95, [8, 7])]⟩
    ∧ BleAdvParser.parse
        (tlv 0x16 (0x95 :: 0xFE :: [8, 7]) ++ tlv 255 (0x99 :: 0x04 :: [9]))
        = .ok ⟨[(1177, [9])], [(0xFE95, [8, 7])]⟩ := by
  have h := c7_parse_recovers_both_payloads [9] [8, 7] (by decide) (by decide)
    (by decide) (by decide)
  exact ⟨by decide, by decide, by decide, by decide, h.1, h.2⟩

end BleScanner
